/-
  Verification of the M68k instruction-level Executor of the CLK repository.

  The embedding below follows src/InstructionSets/M68k/Implementation/ExecutorImplementation.hpp
  and the Executor class declaration (src/unnamed/part_001, Executor.hpp).  Components of the
  repository that are referenced by that file but whose sources are not present under src/
  (Status.hpp, Decoder.hpp, Perform.hpp, Instruction.hpp) are modelled from the specification;
  each such definition carries a doc comment starting with "Modelled from the spec:".

  Machine integers are embedded as Nat with explicit reduction modulo 2^32 (or 2^16, 2^8)
  at every point where the C++ unsigned types wrap.
-/
import Mathlib

namespace CLK

/-- 2^32, the modulus of the uint32_t arithmetic used throughout the executor. -/
def M32 : Nat := 4294967296

/-- Reduction of a natural number to the range of uint32_t. -/
def u32 (n : Nat) : Nat := n % M32

/-- Wrapping 32-bit subtraction, as performed on uint32_t values in C++. -/
def sub32 (a b : Nat) : Nat := (a + (M32 - b % M32)) % M32

/-- Sign extension of an 8-bit value to 32 bits (int8_t cast assigned to uint32_t). -/
def sext8 (b : Nat) : Nat := if b % 256 < 128 then b % 256 else b % 256 + 4294967040

/-- Sign extension of a 16-bit value to 32 bits (int16_t cast assigned to uint32_t). -/
def sext16 (w : Nat) : Nat := if w % 65536 < 32768 then w % 65536 else w % 65536 + 4294901760

/-- Modelled from the spec: the BusHandler collaborator is supplied by the host and is not
part of this core; it is modelled as a big-endian byte-addressable memory, matching the
motorola 68000 family byte order assumed by the hosts.  Addresses are taken modulo 2^32. -/
structure Memory where
  bytes : Nat → Nat

/-- One byte read through the bus handler. -/
def Memory.read8 (m : Memory) (a : Nat) : Nat := m.bytes (u32 a) % 256

/-- One big-endian 16-bit read through the bus handler. -/
def Memory.read16 (m : Memory) (a : Nat) : Nat := m.read8 a * 256 + m.read8 (a + 1)

/-- One big-endian 32-bit read through the bus handler. -/
def Memory.read32 (m : Memory) (a : Nat) : Nat := m.read16 a * 65536 + m.read16 (a + 2)

/-- One byte write through the bus handler. -/
def Memory.write8 (m : Memory) (a v : Nat) : Memory :=
  ⟨fun x => if x = u32 a then v % 256 else m.bytes x⟩

/-- One big-endian 16-bit write through the bus handler. -/
def Memory.write16 (m : Memory) (a v : Nat) : Memory :=
  (m.write8 a (v / 256 % 256)).write8 (a + 1) (v % 256)

/-- One big-endian 32-bit write through the bus handler. -/
def Memory.write32 (m : Memory) (a v : Nat) : Memory :=
  (m.write16 a (v / 65536 % 65536)).write16 (a + 2) (v % 65536)

/-- Operand sizes, from the DataSize enumeration used by ExecutorImplementation.hpp. -/
inductive DataSize where
  | Byte
  | Word
  | LongWord
deriving DecidableEq

/-- Observable actions of the executor: bus reads, bus writes (with size, address and the
bytes transferred), invocations of the Semantic Evaluator (perform), and reaching an
assert(false) branch of the source. -/
inductive Event where
  | busRead : DataSize → Nat → Nat → Event
  | busWrite : DataSize → Nat → Nat → Event
  | performEv : Event
  | assertEv : Event
deriving DecidableEq

/-- Modelled from the spec: the AddressingMode enumeration of Instruction.hpp (not under
src/); the spec fixes it as the closed set: data-register-direct, address-register-direct,
address-register-indirect (plain / postincrement / predecrement / displacement /
indexed-displacement), program-counter-relative (displacement / indexed-displacement),
absolute (short/long), immediate, quick-immediate, none.  Constructor names follow the
uses visible in ExecutorImplementation.hpp and the decoder test (src/unnamed/part_004). -/
inductive AddressingMode where
  | None
  | DataRegisterDirect
  | AddressRegisterDirect
  | AddressRegisterIndirect
  | AddressRegisterIndirectWithPostincrement
  | AddressRegisterIndirectWithPredecrement
  | AddressRegisterIndirectWithDisplacement
  | AddressRegisterIndirectWithIndex8bitDisplacement
  | ProgramCounterIndirectWithDisplacement
  | ProgramCounterIndirectWithIndex8bitDisplacement
  | AbsoluteShort
  | AbsoluteLong
  | ImmediateData
  | Quick
deriving DecidableEq

/-- Modelled from the spec: the Operation enumeration of Instruction.hpp (not under src/).
Only the members needed by the claims are modelled: Undefined (the reserved marker named
in ExecutorImplementation.hpp), ABCD (the one operation mapped by the decoder test,
src/unnamed/part_004) and STOP (a representative supervisor-only operation; the spec
requires privilege checking for such operations). -/
inductive Operation where
  | Undefined
  | ABCD
  | STOP
deriving DecidableEq

/-- Modelled from the spec: the steps of an operation sequence (Perform.hpp is not under
src/). ExecutorImplementation.hpp dispatches on exactly FetchOp1, FetchOp2, Perform,
StoreOp1 and StoreOp2; the spec describes operand fetch, semantic execution and operand
store as the step kinds of the state machine. -/
inductive Step where
  | FetchOp1
  | FetchOp2
  | Perform
  | StoreOp1
  | StoreOp2
deriving DecidableEq

/-- The operand slot addressed by a step, following the source expression int(step) & 1
with the Op1 steps numbered so that they address slot 0. -/
def Step.slot : Step → Fin 2
  | .FetchOp1 => 0
  | .FetchOp2 => 1
  | .Perform => 0
  | .StoreOp1 => 0
  | .StoreOp2 => 1

/-- Modelled from the spec: the Status register (Status.hpp is not under src/).  The spec
fixes the fields: condition codes {carry, overflow, zero, negative, extend}, the
supervisor/user mode bit, a 3-bit interrupt-priority mask and the trace bit.  The bit
layout used by status and set_status is the documented M68000 status-register layout:
trace = bit 15, supervisor = bit 13, interrupt mask = bits 10-8, extend/negative/zero/
overflow/carry = bits 4-0. -/
structure Status where
  carry : Bool
  overflow : Bool
  zero : Bool
  negative : Bool
  extend : Bool
  interrupt_level : Nat
  trace_flag : Bool
  is_supervisor : Bool
deriving DecidableEq

/-- Modelled from the spec: Status::status(), packing the fields into the documented
M68000 status word. -/
def Status.status (s : Status) : Nat :=
  s.carry.toNat + 2 * s.overflow.toNat + 4 * s.zero.toNat +
  8 * s.negative.toNat + 16 * s.extend.toNat +
  256 * (s.interrupt_level % 8) +
  8192 * s.is_supervisor.toNat + 32768 * s.trace_flag.toNat

/-- Modelled from the spec: Status::set_status(uint16_t), unpacking a status word into
the fields. -/
def Status.set_status (w : Nat) : Status where
  carry := w % 2 = 1
  overflow := w / 2 % 2 = 1
  zero := w / 4 % 2 = 1
  negative := w / 8 % 2 = 1
  extend := w / 16 % 2 = 1
  interrupt_level := w / 256 % 8
  trace_flag := w / 32768 % 2 = 1
  is_supervisor := w / 8192 % 2 = 1

/-- Modelled from the spec: the Preinstruction descriptor produced by decoding
(Instruction.hpp is not under src/): operation tag, two operand descriptors
(addressing-mode tag + register index) and an operand size. -/
structure Preinstruction where
  operation : Operation
  mode0 : AddressingMode
  reg0 : Fin 8
  mode1 : AddressingMode
  reg1 : Fin 8
  size : DataSize
deriving DecidableEq

/-- Preinstruction::mode(index): the addressing mode of operand slot 0 or 1. -/
def Preinstruction.mode (i : Preinstruction) (index : Nat) : AddressingMode :=
  if index = 0 then i.mode0 else i.mode1

/-- Preinstruction::reg(index): the register selector of operand slot 0 or 1. -/
def Preinstruction.reg (i : Preinstruction) (index : Nat) : Fin 8 :=
  if index = 0 then i.reg0 else i.reg1

/-- Modelled from the spec: Preinstruction::requires_supervisor() (Instruction.hpp is not
under src/); true exactly for the supervisor-only operations, here represented by STOP. -/
def Preinstruction.requires_supervisor (i : Preinstruction) : Bool :=
  match i.operation with
  | .STOP => true
  | _ => false

/-- Modelled from the spec: Predecoder::decode (Decoder.hpp is not under src/): a pure,
total function from the 16-bit opcode word to a Preinstruction, mapping every
unrecognized word to the Undefined marker.  The modelled recognized set is the ABCD
patterns checked by the decoder test (src/unnamed/part_004): 1100 xxx1 0000 0yyy
(ABCD Dy,Dx) and 1100 xxx1 0000 1yyy (ABCD -(Ay),-(Ax)), plus 0x4E72 (STOP) as a
representative supervisor-only opcode. -/
def decode (w : Nat) : Preinstruction :=
  if w = 20082 then
    { operation := .STOP, mode0 := .ImmediateData, reg0 := 0,
      mode1 := .None, reg1 := 0, size := .Word }
  else if w &&& 61944 = 49408 then
    { operation := .ABCD, mode0 := .DataRegisterDirect, reg0 := ⟨w % 8, Nat.mod_lt _ (by omega)⟩,
      mode1 := .DataRegisterDirect, reg1 := ⟨w / 512 % 8, Nat.mod_lt _ (by omega)⟩,
      size := .Byte }
  else if w &&& 61944 = 49416 then
    { operation := .ABCD, mode0 := .AddressRegisterIndirectWithPredecrement,
      reg0 := ⟨w % 8, Nat.mod_lt _ (by omega)⟩,
      mode1 := .AddressRegisterIndirectWithPredecrement,
      reg1 := ⟨w / 512 % 8, Nat.mod_lt _ (by omega)⟩,
      size := .Byte }
  else
    { operation := .Undefined, mode0 := .None, reg0 := 0,
      mode1 := .None, reg1 := 0, size := .Word }

/-- Modelled from the spec: quick(operation, opcode) of Perform.hpp (not under src/),
the quick-immediate constant encoded in the opcode word (3 bits at bit 9, with 0
denoting 8, as for ADDQ/SUBQ). -/
def quick (_ : Operation) (w : Nat) : Nat :=
  if w / 512 % 8 = 0 then 8 else w / 512 % 8

/-- The byte_increments lookup table of Executor.hpp: A7 is adjusted by 2 rather than 1
in byte-sized postincrement and predecrement modes. -/
def byte_increments : Fin 8 → Nat :=
  ![1, 1, 1, 1, 1, 1, 1, 2]

/-- Modelled from the spec: Sequence(operation) of Perform.hpp (not under src/): the
ordered steps the state machine runs for an operation: fetch the flagged operands,
perform, store the flagged operands. -/
def sequenceOf : Operation → List Step
  | .ABCD => [.FetchOp1, .FetchOp2, .Perform, .StoreOp2]
  | .STOP => [.Perform]
  | .Undefined => []

/-- Modelled from the spec: the Semantic Evaluator contract (Perform.hpp is not under
src/): given the decoded instruction, the two resolved operand values and the status, it
returns the two result values and the updated status.  Flow-control callbacks other than
the status update are empty in this executor (stop, set_pc and add_pc have empty bodies
in ExecutorImplementation.hpp). -/
def PerformFn : Type :=
  Preinstruction → Nat → Nat → Status → Nat × Nat × Status

/-- A trivial Semantic Evaluator used to instantiate theorems at concrete inputs: it
returns the operands and status unchanged. -/
def trivPerform : PerformFn := fun _ a b st => (a, b, st)

/-- The persistent processor state of the Executor class (Executor.hpp,
src/unnamed/part_001): status, program counter, data and address register files, the two
banked stack pointers, the current instruction address and the active stack pointer
bookkeeping index (an int in the source, indexing stack_pointers_ together with
is_supervisor_; both are modelled as the corresponding Bool-indexed selector). -/
structure Executor where
  status : Status
  program_counter : Nat
  data : Fin 8 → Nat
  address : Fin 8 → Nat
  stack_pointers : Bool → Nat
  instruction_address : Nat
  active_stack_pointer : Bool

/-- The register snapshot structure Executor::Registers (src/unnamed/part_001):
8 data registers, 7 address registers, both banked stack pointers, the status word and
the program counter. -/
structure Registers where
  data : Fin 8 → Nat
  address : Fin 7 → Nat
  user_stack_pointer : Nat
  supervisor_stack_pointer : Nat
  status : Nat
  program_counter : Nat

/-- Executor::did_update_status(): save A7 into the bank named by the bookkeeping index,
load A7 from the bank named by the supervisor bit, and record that bank as active. -/
def Executor.did_update_status (s : Executor) : Executor :=
  let sp := Function.update s.stack_pointers s.active_stack_pointer (s.address 7)
  { s with
    stack_pointers := sp
    address := Function.update s.address 7 (sp s.status.is_supervisor)
    active_stack_pointer := s.status.is_supervisor }

/-- Executor::get_state(): copy the register files, status word and program counter into
a Registers snapshot; refresh the active bank from A7 and report both banks.  The
refresh mutates stack_pointers_, so the updated executor is returned alongside. -/
def Executor.get_state (s : Executor) : Registers × Executor :=
  let sp := Function.update s.stack_pointers s.status.is_supervisor (s.address 7)
  (⟨fun i => s.data i,
    fun i => s.address i.castSucc,
    sp false, sp true,
    s.status.status,
    s.program_counter⟩,
   { s with stack_pointers := sp })

/-- Executor::set_state(const Registers &): restore the register files, status word,
program counter and both stack-pointer banks, then load A7 from the bank named by the
restored supervisor bit.  The bookkeeping index is not touched by the source. -/
def Executor.set_state (s : Executor) (r : Registers) : Executor :=
  let st := Status.set_status r.status
  let sp := fun b => cond b r.supervisor_stack_pointer r.user_stack_pointer
  { s with
    data := fun i => r.data i
    address := fun i =>
      if h : (i : Nat) < 7 then r.address ⟨i, h⟩ else sp st.is_supervisor
    status := st
    program_counter := r.program_counter
    stack_pointers := sp }

/-- Executor::reset(): establish supervisor state with the source's status constant, swap
the stack-pointer bank, then seed D7 (sic: data_[7] in the source) and the program
counter from the 32-bit words at addresses 0 and 4. -/
def Executor.reset (s : Executor) (m : Memory) : Executor × List Event :=
  let s1 := Executor.did_update_status { s with status := Status.set_status 0b0010001110000000 }
  let spv := m.read32 0
  let pcv := m.read32 4
  ({ s1 with
      data := Function.update s1.data 7 spv
      program_counter := pcv },
   [.busRead .LongWord 0 spv, .busRead .LongWord 4 pcv])

/-- Executor::raise_exception(int): capture the status word, enter supervisor mode and
swap the stack-pointer bank, push the instruction start address (32-bit) and the captured
status (16-bit) with two bus writes, drop A7 by 6 and load the program counter from the
vector location index*4. -/
def Executor.raise_exception (index : Nat) (s : Executor) (m : Memory) :
    Executor × Memory × List Event :=
  let addr := u32 (index * 4)
  let status := s.status.status
  let s1 := Executor.did_update_status { s with status := { s.status with is_supervisor := true } }
  let a7 := s1.address 7
  let m1 := m.write32 (sub32 a7 4) (u32 s.instruction_address)
  let m2 := m1.write16 (sub32 a7 6) status
  let s2 := { s1 with address := Function.update s1.address 7 (sub32 a7 6) }
  let pc := m2.read32 addr
  ({ s2 with program_counter := pc }, m2,
   [.busWrite .LongWord (sub32 a7 4) (u32 s.instruction_address),
    .busWrite .Word (sub32 a7 6) status,
    .busRead .LongWord addr pc])

/-- Executor::read_pc<uint16_t>(): fetch one program word at the program counter and
advance the program counter by 2. -/
def Executor.read_pc16 (s : Executor) (m : Memory) : Nat × Executor × List Event :=
  let v := m.read16 (u32 s.program_counter)
  (v, { s with program_counter := u32 (s.program_counter + 2) },
   [.busRead .Word (u32 s.program_counter) v])

/-- Executor::read_pc<uint32_t>(): fetch one program longword at the program counter and
advance the program counter by 4. -/
def Executor.read_pc32 (s : Executor) (m : Memory) : Nat × Executor × List Event :=
  let v := m.read32 (u32 s.program_counter)
  (v, { s with program_counter := u32 (s.program_counter + 4) },
   [.busRead .LongWord (u32 s.program_counter) v])

/-- Executor::index_8bitdisplacement(): read one extension word; add the sign-extended
low byte to the selected index register, taken whole if bit 11 is set and sign-extended
from 16 bits otherwise. -/
def Executor.index_8bitdisplacement (s : Executor) (m : Memory) :
    Nat × Executor × List Event :=
  let r := Executor.read_pc16 s m
  let extension := r.1
  let s1 := r.2.1
  let register_index : Fin 8 := ⟨extension / 4096 % 8, Nat.mod_lt _ (by omega)⟩
  let displacement := if extension / 32768 % 2 = 1
    then s1.address register_index else s1.data register_index
  let sized_displacement := if extension / 2048 % 2 = 1
    then displacement else sext16 displacement
  (u32 (sext8 extension + sized_displacement), s1, r.2.2)

/-- The EffectiveAddress pair of Executor.hpp: a resolved value and whether the value is
an address whose operand must still be fetched over the bus. -/
structure EffectiveAddress where
  value : Nat
  requires_fetch : Bool
deriving DecidableEq

/-- The per-size adjustment applied by postincrement and predecrement modes: the
byte_increments entry for byte operands, 2 for words, 4 for longwords. -/
def sizeIncrement (sz : DataSize) (reg : Fin 8) : Nat :=
  match sz with
  | .Byte => byte_increments reg
  | .Word => 2
  | .LongWord => 4

/-- Executor::calculate_effective_address(Preinstruction, uint16_t, int), transcribed
case by case from the source switch.  The None case leaves the source value
uninitialised; it is modelled as 0 with requires_fetch false (the source comments that
the value shall not be used).  With the spec's closed addressing-mode enumeration every
case is listed, so the assertion-guarded default of the source is unreachable. -/
def Executor.calculate_effective_address (s : Executor) (m : Memory)
    (instruction : Preinstruction) (opcode : Nat) (index : Nat) :
    EffectiveAddress × Executor × List Event :=
  match instruction.mode index with
  | .None => (⟨0, false⟩, s, [])
  | .DataRegisterDirect => (⟨s.data (instruction.reg index), false⟩, s, [])
  | .AddressRegisterDirect => (⟨s.address (instruction.reg index), false⟩, s, [])
  | .Quick => (⟨quick instruction.operation opcode, false⟩, s, [])
  | .ImmediateData =>
    match instruction.size with
    | .Byte =>
      let r := Executor.read_pc16 s m
      (⟨r.1 % 256, false⟩, r.2.1, r.2.2)
    | .Word =>
      let r := Executor.read_pc16 s m
      (⟨r.1, false⟩, r.2.1, r.2.2)
    | .LongWord =>
      let r := Executor.read_pc32 s m
      (⟨r.1, false⟩, r.2.1, r.2.2)
  | .AbsoluteShort =>
    let r := Executor.read_pc16 s m
    (⟨sext16 r.1, true⟩, r.2.1, r.2.2)
  | .AbsoluteLong =>
    let r := Executor.read_pc32 s m
    (⟨r.1, true⟩, r.2.1, r.2.2)
  | .AddressRegisterIndirect => (⟨s.address (instruction.reg index), true⟩, s, [])
  | .AddressRegisterIndirectWithPostincrement =>
    let reg := instruction.reg index
    let inc := sizeIncrement instruction.size reg
    (⟨s.address reg, true⟩,
     { s with address := Function.update s.address reg (u32 (s.address reg + inc)) },
     [])
  | .AddressRegisterIndirectWithPredecrement =>
    let reg := instruction.reg index
    let inc := sizeIncrement instruction.size reg
    let value := sub32 (s.address reg) inc
    (⟨value, true⟩,
     { s with address := Function.update s.address reg value },
     [])
  | .AddressRegisterIndirectWithDisplacement =>
    let r := Executor.read_pc16 s m
    (⟨u32 (r.2.1.address (instruction.reg index) + sext16 r.1), true⟩, r.2.1, r.2.2)
  | .AddressRegisterIndirectWithIndex8bitDisplacement =>
    let r := Executor.index_8bitdisplacement s m
    (⟨u32 (r.2.1.address (instruction.reg index) + r.1), true⟩, r.2.1, r.2.2)
  | .ProgramCounterIndirectWithDisplacement =>
    let r := Executor.read_pc16 s m
    (⟨u32 (r.2.1.program_counter + sext16 r.1), true⟩, r.2.1, r.2.2)
  | .ProgramCounterIndirectWithIndex8bitDisplacement =>
    let r := Executor.index_8bitdisplacement s m
    (⟨u32 (r.2.1.program_counter + r.1), true⟩, r.2.1, r.2.2)

/-- Executor::read(DataSize, uint32_t, SlicedInt32 &): a bus read of the given size. -/
def readSized (sz : DataSize) (m : Memory) (a : Nat) : Nat :=
  match sz with
  | .Byte => m.read8 a
  | .Word => m.read16 a
  | .LongWord => m.read32 a

/-- Executor::write(DataSize, uint32_t, SlicedInt32): a bus write of the given size. -/
def writeSized (sz : DataSize) (m : Memory) (a v : Nat) : Memory :=
  match sz with
  | .Byte => m.write8 a v
  | .Word => m.write16 a v
  | .LongWord => m.write32 a v

/-- The sub-width of a 32-bit value selected by a size (SlicedInt32 .b/.w/.l reads). -/
def maskSized (sz : DataSize) (v : Nat) : Nat :=
  match sz with
  | .Byte => v % 256
  | .Word => v % 65536
  | .LongWord => u32 v

/-- Assignment into the size-selected sub-width of a 32-bit slot, keeping the remaining
bits (SlicedInt32 .b/.w assignment as performed by Executor::read). -/
def setSized (sz : DataSize) (old v : Nat) : Nat :=
  match sz with
  | .Byte => u32 old / 256 * 256 + v % 256
  | .Word => u32 old / 65536 * 65536 + v % 65536
  | .LongWord => u32 v

/-- The per-instruction transient state of run_for_instructions: the executor and memory,
the two operand slots, and the events issued so far for this instruction. -/
structure ExecCtx where
  s : Executor
  m : Memory
  op0 : Nat
  op1 : Nat
  events : List Event

/-- The operand slot selected by an index. -/
def ExecCtx.operand (ctx : ExecCtx) (i : Fin 2) : Nat :=
  if i = 0 then ctx.op0 else ctx.op1

/-- Replacement of the operand slot selected by an index. -/
def ExecCtx.setOperand (ctx : ExecCtx) (i : Fin 2) (v : Nat) : ExecCtx :=
  if i = 0 then { ctx with op0 := v } else { ctx with op1 := v }

/-- The Step::FetchOp1/FetchOp2 case of the run_for_instructions dispatch: if the operand
was not indirect it is already fetched; otherwise read it over the bus at the resolved
effective address, honouring the operand size. -/
def fetchOperand (instruction : Preinstruction) (ea : Fin 2 → EffectiveAddress)
    (i : Fin 2) (ctx : ExecCtx) : ExecCtx :=
  if (ea i).requires_fetch = false then ctx
  else
    let a := u32 (ea i).value
    let v := readSized instruction.size ctx.m a
    { ctx.setOperand i (setSized instruction.size (ctx.operand i) v) with
      events := ctx.events ++ [.busRead instruction.size a v] }

/-- The Step::StoreOp1/StoreOp2 case of the run_for_instructions dispatch: a
register-direct operand is stored straight into Dn or An (the source asserts the mode is
one of those two; reaching any other mode here is the assertion failure, modelled as an
assertEv before the else branch of the source runs); an indirect operand is written over
the bus at the resolved effective address. -/
def storeOperand (instruction : Preinstruction) (ea : Fin 2 → EffectiveAddress)
    (i : Fin 2) (ctx : ExecCtx) : ExecCtx :=
  if (ea i).requires_fetch = false then
    match instruction.mode i with
    | .DataRegisterDirect =>
      { ctx with s := { ctx.s with
          data := Function.update ctx.s.data (instruction.reg i) (ctx.operand i) } }
    | .AddressRegisterDirect =>
      { ctx with s := { ctx.s with
          address := Function.update ctx.s.address (instruction.reg i) (ctx.operand i) } }
    | _ =>
      { ctx with
        s := { ctx.s with
          address := Function.update ctx.s.address (instruction.reg i) (ctx.operand i) }
        events := ctx.events ++ [.assertEv] }
  else
    let a := u32 (ea i).value
    { ctx with
      m := writeSized instruction.size ctx.m a (ctx.operand i)
      events := ctx.events ++ [.busWrite instruction.size a
        (maskSized instruction.size (ctx.operand i))] }

/-- The Step::Perform case of the run_for_instructions dispatch: invoke the Semantic
Evaluator on the operand slots and the status. -/
def performStep (pf : PerformFn) (instruction : Preinstruction) (ctx : ExecCtx) : ExecCtx :=
  let r := pf instruction ctx.op0 ctx.op1 ctx.s.status
  { ctx with
    op0 := u32 r.1
    op1 := u32 r.2.1
    s := { ctx.s with status := r.2.2 }
    events := ctx.events ++ [.performEv] }

/-- The step dispatch of Executor::run_for_instructions, one step at a time. -/
def execStep (pf : PerformFn) (instruction : Preinstruction)
    (ea : Fin 2 → EffectiveAddress) (ctx : ExecCtx) : Step → ExecCtx
  | .FetchOp1 => fetchOperand instruction ea 0 ctx
  | .FetchOp2 => fetchOperand instruction ea 1 ctx
  | .Perform => performStep pf instruction ctx
  | .StoreOp1 => storeOperand instruction ea 0 ctx
  | .StoreOp2 => storeOperand instruction ea 1 ctx

/-- The vector selected for an Undefined opcode by the switch on opcode & 0xf000 in
run_for_instructions: 10 for the 0xA000 line, 11 for the 0xF000 line, 4 otherwise. -/
def undefinedVector (w : Nat) : Nat :=
  if w &&& 61440 = 40960 then 10
  else if w &&& 61440 = 61440 then 11
  else 4

/-- The body of the run_for_instructions loop: record the instruction address, fetch and
decode the opcode, check the privilege and undefined-opcode conditions (raising vectors
8, and 4/10/11 by opcode range, instead of executing), then resolve both effective
addresses, seed the operand slots and run the operation's step sequence. -/
def Executor.run_one (pf : PerformFn) (s : Executor) (m : Memory) :
    Executor × Memory × List Event :=
  let s0 := { s with instruction_address := s.program_counter }
  let f := Executor.read_pc16 s0 m
  let opcode := f.1
  let s1 := f.2.1
  let instruction := decode opcode
  if s1.status.is_supervisor = false ∧ instruction.requires_supervisor = true then
    let r := Executor.raise_exception 8 s1 m
    (r.1, r.2.1, f.2.2 ++ r.2.2)
  else if instruction.operation = .Undefined then
    let r := Executor.raise_exception (undefinedVector opcode) s1 m
    (r.1, r.2.1, f.2.2 ++ r.2.2)
  else
    let e0 := Executor.calculate_effective_address s1 m instruction opcode 0
    let e1 := Executor.calculate_effective_address e0.2.1 m instruction opcode 1
    let ea : Fin 2 → EffectiveAddress := fun i => if i = 0 then e0.1 else e1.1
    let ctx0 : ExecCtx := ⟨e1.2.1, m, e0.1.value, e1.1.value, []⟩
    let ctx := (sequenceOf instruction.operation).foldl (execStep pf instruction ea) ctx0
    (ctx.s, ctx.m, f.2.2 ++ e0.2.2 ++ e1.2.2 ++ ctx.events)

/-- Executor::run_for_instructions(int): the loop body iterated the requested number of
times. -/
def Executor.run_for_instructions (pf : PerformFn) :
    Nat → Executor → Memory → Executor × Memory × List Event
  | 0, s, m => (s, m, [])
  | n + 1, s, m =>
    let r := Executor.run_one pf s m
    let rest := Executor.run_for_instructions pf n r.1 r.2.1
    (rest.1, rest.2.1, r.2.2 ++ rest.2.2)

/-- The four classes the spec partitions decode results into. -/
inductive DecodeClass where
  | valid
  | line1010
  | line1111
  | genericUndefined
deriving DecidableEq

/-- Membership of an opcode in one of the four spec classes: a recognized operation, a
line-1010 undefined opcode, a line-1111 undefined opcode, or a generically undefined
opcode. -/
def InClass (w : Nat) : DecodeClass → Prop
  | .valid => (decode w).operation ≠ .Undefined
  | .line1010 => (decode w).operation = .Undefined ∧ w &&& 61440 = 40960
  | .line1111 => (decode w).operation = .Undefined ∧ w &&& 61440 = 61440
  | .genericUndefined =>
    (decode w).operation = .Undefined ∧ w &&& 61440 ≠ 40960 ∧ w &&& 61440 ≠ 61440

/-- A Status with everything clear, in user mode. -/
def zeroStatus : Status :=
  ⟨false, false, false, false, false, 0, false, false⟩

/-- An Executor whose registers, status and bookkeeping all hold zero. -/
def zeroExecutor : Executor :=
  { status := zeroStatus
    program_counter := 0
    data := fun _ => 0
    address := fun _ => 0
    stack_pointers := fun _ => 0
    instruction_address := 0
    active_stack_pointer := false }

/-- The memory image of the reset test: addresses 0-7 hold the 32-bit values 0x00123456
(the initial supervisor stack pointer) and 0x00789ABC (the initial program counter). -/
def resetMemory : Memory :=
  ⟨fun a =>
    if a = 1 then 0x12 else if a = 2 then 0x34 else if a = 3 then 0x56
    else if a = 5 then 0x78 else if a = 6 then 0x9A else if a = 7 then 0xBC else 0⟩

/-- A user-mode executor about to fetch from address 256, with distinct user and
supervisor stack banks. -/
def userExecutor : Executor :=
  { zeroExecutor with
    program_counter := 256
    address := fun i => if i = 7 then 0x1000 else 0
    stack_pointers := fun b => if b then 0x2000 else 0x1000 }

/-- A supervisor-mode executor about to fetch from address 256. -/
def supervisorExecutor : Executor :=
  { userExecutor with
    status := { zeroStatus with is_supervisor := true }
    active_stack_pointer := true
    address := fun i => if i = 7 then 0x2000 else 0
    data := fun i => if i = 1 then 11 else if i = 2 then 22 else 0 }

/-- A memory image holding the STOP opcode 0x4E72 at address 256 and 0x44 as the low
byte of exception vector 8 (addresses 32-35). -/
def stopMemory : Memory :=
  ⟨fun a => if a = 256 then 0x4E else if a = 257 then 0x72
    else if a = 35 then 0x44 else 0⟩

/-- A memory image holding the line-1010 opcode 0xA123 at address 256. -/
def lineAMemory : Memory :=
  ⟨fun a => if a = 256 then 0xA1 else if a = 257 then 0x23 else 0⟩

/-- A memory image holding the opcode of ABCD D1,D2 (0xC501) at address 256. -/
def abcdMemory : Memory :=
  ⟨fun a => if a = 256 then 0xC5 else if a = 257 then 0x01 else 0⟩

/-- A snapshot whose status word is 0 (user mode), used to exhibit the set_state
bookkeeping gap. -/
def userSnapshot : Registers :=
  ⟨fun _ => 0, fun _ => 0, 0x1000, 0x2000, 0, 0⟩

/-- The supervisor stack bank as seen before an exception is delivered: A7 itself when
the processor is already in supervisor mode, the banked supervisor slot otherwise. -/
def supervisorBank (s : Executor) : Nat :=
  if s.status.is_supervisor then s.address 7 else s.stack_pointers true

/-- A concrete transient context used to instantiate step-dispatch theorems. -/
def exampleCtx : ExecCtx :=
  ⟨supervisorExecutor, abcdMemory, 3, 4, []⟩

/-- Iterated halving distributes over bitwise and. -/
theorem and_div_two_pow (a b k : Nat) : (a &&& b) / 2 ^ k = (a / 2 ^ k) &&& (b / 2 ^ k) := by
  induction k with
  | zero => simp
  | succ k ih =>
    have h : ∀ x : Nat, x / 2 ^ (k + 1) = x / 2 ^ k / 2 := by
      intro x
      rw [Nat.div_div_eq_div_mul, pow_succ]
    rw [h, h, h, ih, Nat.and_div_two]

/-- Masking with 0xF000 keeps exactly bits 12-15. -/
theorem and_61440 (w : Nat) : w &&& 61440 = w / 4096 % 16 * 4096 := by
  have hdiv : (w &&& 61440) / 4096 = w / 4096 % 16 := by
    have h := and_div_two_pow w 61440 12
    norm_num at h
    rw [h]
    have h15 := Nat.and_pow_two_sub_one_eq_mod (w / 4096) 4
    norm_num at h15
    exact h15
  have hmod : (w &&& 61440) % 4096 = 0 := by
    have h := Nat.and_pow_two_sub_one_eq_mod (w &&& 61440) 12
    norm_num at h
    have h0 : (61440 : Nat) &&& 4095 = 0 := by decide
    rw [← h, Nat.and_assoc, h0, Nat.and_zero]
  have := Nat.div_add_mod (w &&& 61440) 4096
  omega

/-- Unpacking the packed status word recovers every field, with the interrupt level
reduced to its 3 bits. -/
theorem statusRoundTrip (st : Status) :
    Status.set_status st.status = { st with interrupt_level := st.interrupt_level % 8 } := by
  rcases st with ⟨c, v, z, n, x, l, t, s⟩
  have hv : v.toNat < 2 := Bool.toNat_lt v
  have hz : z.toNat < 2 := Bool.toNat_lt z
  have hn : n.toNat < 2 := Bool.toNat_lt n
  have hx : x.toNat < 2 := Bool.toNat_lt x
  have hs : s.toNat < 2 := Bool.toNat_lt s
  have ht : t.toNat < 2 := Bool.toNat_lt t
  have hc : c.toNat < 2 := Bool.toNat_lt c
  simp only [Status.status, Status.set_status, Status.mk.injEq]
  refine ⟨?_, ?_, ?_, ?_, ?_, ?_, ?_, ?_⟩
  · cases c
    · rw [decide_eq_false_iff_not]
      simp only [Bool.toNat_false]
      omega
    · rw [decide_eq_true_eq]
      simp only [Bool.toNat_true]
      omega
  · cases v
    · rw [decide_eq_false_iff_not]
      simp only [Bool.toNat_false]
      omega
    · rw [decide_eq_true_eq]
      simp only [Bool.toNat_true]
      omega
  · cases z
    · rw [decide_eq_false_iff_not]
      simp only [Bool.toNat_false]
      omega
    · rw [decide_eq_true_eq]
      simp only [Bool.toNat_true]
      omega
  · cases n
    · rw [decide_eq_false_iff_not]
      simp only [Bool.toNat_false]
      omega
    · rw [decide_eq_true_eq]
      simp only [Bool.toNat_true]
      omega
  · cases x
    · rw [decide_eq_false_iff_not]
      simp only [Bool.toNat_false]
      omega
    · rw [decide_eq_true_eq]
      simp only [Bool.toNat_true]
      omega
  · omega
  · cases t
    · rw [decide_eq_false_iff_not]
      simp only [Bool.toNat_false]
      omega
    · rw [decide_eq_true_eq]
      simp only [Bool.toNat_true]
      omega
  · cases s
    · rw [decide_eq_false_iff_not]
      simp only [Bool.toNat_false]
      omega
    · rw [decide_eq_true_eq]
      simp only [Bool.toNat_true]
      omega

/-- After raise_exception the bookkeeping index agrees with the supervisor bit. -/
theorem raise_inv (v : Nat) (s : Executor) (m : Memory) :
    (Executor.raise_exception v s m).1.active_stack_pointer =
      (Executor.raise_exception v s m).1.status.is_supervisor := by
  simp [Executor.raise_exception, Executor.did_update_status]

/-- Effective-address calculation touches neither the status nor the bookkeeping index. -/
theorem calcEA_pres (s : Executor) (m : Memory) (instr : Preinstruction) (w idx : Nat) :
    (Executor.calculate_effective_address s m instr w idx).2.1.status = s.status ∧
    (Executor.calculate_effective_address s m instr w idx).2.1.active_stack_pointer
      = s.active_stack_pointer := by
  cases hm : instr.mode idx <;> cases hsz : instr.size <;>
    simp [Executor.calculate_effective_address, hm, hsz, Executor.read_pc16,
      Executor.read_pc32, Executor.index_8bitdisplacement]

/-- A single dispatch step keeps the bookkeeping index, and keeps the supervisor bit as
long as the Semantic Evaluator does. -/
theorem execStep_pres (pf : PerformFn) (instr : Preinstruction)
    (ea : Fin 2 → EffectiveAddress) (ctx : ExecCtx) (st : Step)
    (hpf : ∀ (i : Preinstruction) (a b : Nat) (q : Status),
      (pf i a b q).2.2.is_supervisor = q.is_supervisor) :
    (execStep pf instr ea ctx st).s.active_stack_pointer = ctx.s.active_stack_pointer ∧
    (execStep pf instr ea ctx st).s.status.is_supervisor = ctx.s.status.is_supervisor := by
  cases st <;>
    (simp only [execStep, fetchOperand, storeOperand, performStep, ExecCtx.setOperand]
     repeat' split) <;>
    simp [hpf]

/-- The whole step sequence keeps the bookkeeping index and the supervisor bit, as long
as the Semantic Evaluator keeps the supervisor bit. -/
theorem foldl_pres (pf : PerformFn) (instr : Preinstruction)
    (ea : Fin 2 → EffectiveAddress)
    (hpf : ∀ (i : Preinstruction) (a b : Nat) (q : Status),
      (pf i a b q).2.2.is_supervisor = q.is_supervisor) :
    ∀ (steps : List Step) (ctx : ExecCtx),
      ((steps.foldl (execStep pf instr ea) ctx).s.active_stack_pointer
        = ctx.s.active_stack_pointer) ∧
      ((steps.foldl (execStep pf instr ea) ctx).s.status.is_supervisor
        = ctx.s.status.is_supervisor) := by
  intro steps
  induction steps with
  | nil => intro ctx; simp
  | cons st rest ih =>
    intro ctx
    rw [List.foldl_cons]
    have h1 := execStep_pres pf instr ea ctx st hpf
    have h2 := ih (execStep pf instr ea ctx st)
    exact ⟨h2.1.trans h1.1, h2.2.trans h1.2⟩

/-- One loop iteration of run_for_instructions preserves agreement of the bookkeeping
index with the supervisor bit, as long as the Semantic Evaluator keeps the bit. -/
theorem run_one_inv (pf : PerformFn) (s : Executor) (m : Memory)
    (hpf : ∀ (i : Preinstruction) (a b : Nat) (q : Status),
      (pf i a b q).2.2.is_supervisor = q.is_supervisor)
    (hinv : s.active_stack_pointer = s.status.is_supervisor) :
    (Executor.run_one pf s m).1.active_stack_pointer =
      (Executor.run_one pf s m).1.status.is_supervisor := by
  simp only [Executor.run_one]
  split_ifs with h1 h2
  · exact raise_inv _ _ _
  · exact raise_inv _ _ _
  · rw [(foldl_pres pf _ _ hpf _ _).1, (foldl_pres pf _ _ hpf _ _).2]
    dsimp only
    rw [(calcEA_pres _ _ _ _ _).1, (calcEA_pres _ _ _ _ _).2]
    rw [(calcEA_pres _ _ _ _ _).1, (calcEA_pres _ _ _ _ _).2]
    simp [Executor.read_pc16]
    exact hinv

/-- Effective-address calculation never emits the assertion-failure marker. -/
theorem calcEA_noassert (s : Executor) (m : Memory) (instr : Preinstruction) (w idx : Nat) :
    Event.assertEv ∉ (Executor.calculate_effective_address s m instr w idx).2.2 := by
  cases hm : instr.mode idx <;> cases hsz : instr.size <;>
    simp [Executor.calculate_effective_address, hm, hsz, Executor.read_pc16,
      Executor.read_pc32, Executor.index_8bitdisplacement]

/-- C1: on an instruction fetch, a supervisor-only instruction decoded in user mode makes
run_one raise exception vector 8 without ever invoking the Semantic Evaluator; an opcode
decoding as Undefined makes run_one raise the range-selected vector, again without
invoking the Semantic Evaluator; and the vector selection maps opcodes 0xA000-0xAFFF to
10, 0xF000-0xFFFF to 11 and every other 16-bit opcode to 4. -/
theorem c1_privilege_and_undefined_vectors (pf : PerformFn) (s : Executor) (m : Memory) :
    ((s.status.is_supervisor = false →
      (decode (m.read16 (u32 s.program_counter))).requires_supervisor = true →
      Executor.run_one pf s m =
        (let s1 : Executor := { s with instruction_address := s.program_counter,
                                       program_counter := u32 (s.program_counter + 2) }
         let r := Executor.raise_exception 8 s1 m
         (r.1, r.2.1,
          Event.busRead .Word (u32 s.program_counter) (m.read16 (u32 s.program_counter))
            :: r.2.2)) ∧
      Event.performEv ∉ (Executor.run_one pf s m).2.2)) ∧
    ((decode (m.read16 (u32 s.program_counter))).operation = .Undefined →
      Executor.run_one pf s m =
        (let s1 : Executor := { s with instruction_address := s.program_counter,
                                       program_counter := u32 (s.program_counter + 2) }
         let r := Executor.raise_exception
           (undefinedVector (m.read16 (u32 s.program_counter))) s1 m
         (r.1, r.2.1,
          Event.busRead .Word (u32 s.program_counter) (m.read16 (u32 s.program_counter))
            :: r.2.2)) ∧
      Event.performEv ∉ (Executor.run_one pf s m).2.2) ∧
    (∀ w : Nat, w < 65536 →
      ((40960 ≤ w ∧ w ≤ 45055 → undefinedVector w = 10) ∧
       (61440 ≤ w ∧ w ≤ 65535 → undefinedVector w = 11) ∧
       (¬(40960 ≤ w ∧ w ≤ 45055) → ¬(61440 ≤ w ∧ w ≤ 65535) → undefinedVector w = 4))) := by
  refine ⟨?_, ?_, ?_⟩
  · intro hsup hreq
    constructor
    · simp [Executor.run_one, Executor.read_pc16, hsup, hreq]
    · simp [Executor.run_one, Executor.read_pc16, Executor.raise_exception, hsup, hreq]
  · intro hund
    have hreq : (decode (m.read16 (u32 s.program_counter))).requires_supervisor = false := by
      rw [Preinstruction.requires_supervisor, hund]
    constructor
    · simp [Executor.run_one, Executor.read_pc16, hund, hreq]
    · simp [Executor.run_one, Executor.read_pc16, Executor.raise_exception, hund, hreq]
  · intro w hw
    have h := and_61440 w
    refine ⟨?_, ?_, ?_⟩
    · intro hr
      simp only [undefinedVector, h]
      rw [if_pos (by omega)]
    · intro hr
      simp only [undefinedVector, h]
      rw [if_neg (by omega), if_pos (by omega)]
    · intro h1 h2
      simp only [undefinedVector, h]
      rw [if_neg (by omega), if_neg (by omega)]

/-- C1 witness: at concrete inputs, a user-mode STOP fetch and a line-1010 fetch each run
without any Semantic Evaluator invocation, and opcode 0xA123 selects vector 10. -/
theorem c1_privilege_and_undefined_vectors_witness :
    Event.performEv ∉ (Executor.run_one trivPerform userExecutor stopMemory).2.2 ∧
    Event.performEv ∉ (Executor.run_one trivPerform userExecutor lineAMemory).2.2 ∧
    undefinedVector 41251 = 10 :=
  ⟨((c1_privilege_and_undefined_vectors trivPerform userExecutor stopMemory).1
      (by decide) (by decide)).2,
   ((c1_privilege_and_undefined_vectors trivPerform userExecutor lineAMemory).2.1
      (by decide)).2,
   (((c1_privilege_and_undefined_vectors trivPerform userExecutor lineAMemory).2.2
      41251 (by decide)).1 (by decide))⟩

/-- C2: with a memory image holding 0x00123456 at address 0 and 0x00789ABC at address 4,
the snapshot taken after reset reports program_counter = 0x00789ABC, but the value read
from address 0 lands in data register D7 (data_[7] in the source), so the reported
supervisor stack pointer stays 0 and is not 0x00123456 as the claim requires. -/
theorem c2_reset_seeds_d7_not_supervisor_stack :
    ((Executor.reset zeroExecutor resetMemory).1.get_state).1.program_counter = 0x00789ABC ∧
    ((Executor.reset zeroExecutor resetMemory).1.get_state).1.data 7 = 0x00123456 ∧
    ((Executor.reset zeroExecutor resetMemory).1.get_state).1.supervisor_stack_pointer = 0 ∧
    ((Executor.reset zeroExecutor resetMemory).1.get_state).1.supervisor_stack_pointer
      ≠ 0x00123456 := by
  refine ⟨?_, ?_, ?_, ?_⟩ <;> decide

/-- C3: taking a snapshot, applying it with set_state and snapshotting again returns a
snapshot identical to the first, for every processor state, supervisor or user, with
both stack-pointer banks restored. -/
theorem c3_set_state_get_state_roundtrip (s : Executor) :
    (((s.get_state).2.set_state (s.get_state).1).get_state).1 = (s.get_state).1 := by
  have hst := statusRoundTrip s.status
  simp only [Executor.get_state, Executor.set_state]
  simp only [Registers.mk.injEq]
  refine ⟨?_, ?_, ?_, ?_, ?_, ?_⟩
  · trivial
  · funext i
    have h7 : ((i.castSucc : Fin 8) : Nat) < 7 := by
      simp
    simp only [dif_pos h7]
    congr 1
  · cases hsup : s.status.is_supervisor <;>
      simp [Function.update, hst, hsup]
  · cases hsup : s.status.is_supervisor <;>
      simp [Function.update, hst, hsup]
  · rw [hst]
    simp only [Status.status]
    omega
  · trivial

/-- C4: exception delivery captures the pre-exception status word, sets the supervisor
bit with the accompanying bank swap, pushes the instruction start address and the
captured status with exactly two bus writes at supervisor-bank minus 4 and minus 6,
leaves A7 lowered by 6, and loads the program counter from the vector location v*4 of
the post-push memory. -/
theorem c4_exception_delivery_sequence (v : Nat) (s : Executor) (m : Memory)
    (hinv : s.active_stack_pointer = s.status.is_supervisor) :
    (Executor.raise_exception v s m).2.2 =
      [Event.busWrite .LongWord (sub32 (supervisorBank s) 4) (u32 s.instruction_address),
       Event.busWrite .Word (sub32 (supervisorBank s) 6) s.status.status,
       Event.busRead .LongWord (u32 (v * 4))
         (((Executor.raise_exception v s m).2.1).read32 (u32 (v * 4)))] ∧
    (Executor.raise_exception v s m).2.1 =
      (m.write32 (sub32 (supervisorBank s) 4) (u32 s.instruction_address)).write16
        (sub32 (supervisorBank s) 6) s.status.status ∧
    (Executor.raise_exception v s m).1.status.is_supervisor = true ∧
    (Executor.raise_exception v s m).1.active_stack_pointer = true ∧
    (Executor.raise_exception v s m).1.address 7 = sub32 (supervisorBank s) 6 ∧
    (Executor.raise_exception v s m).1.program_counter =
      ((Executor.raise_exception v s m).2.1).read32 (u32 (v * 4)) := by
  cases hsup : s.status.is_supervisor <;>
    refine ⟨?_, ?_, ?_, ?_, ?_, ?_⟩ <;>
      simp [Executor.raise_exception, Executor.did_update_status, supervisorBank,
        Function.update, hinv, hsup]

/-- C4 witness: delivering vector 2 from a concrete supervisor state enters supervisor
mode and leaves A7 exactly 6 below the supervisor bank. -/
theorem c4_exception_delivery_sequence_witness :
    supervisorExecutor.active_stack_pointer = supervisorExecutor.status.is_supervisor ∧
    (Executor.raise_exception 2 supervisorExecutor stopMemory).1.status.is_supervisor = true ∧
    (Executor.raise_exception 2 supervisorExecutor stopMemory).1.address 7
      = sub32 (supervisorBank supervisorExecutor) 6 :=
  ⟨by decide,
   (c4_exception_delivery_sequence 2 supervisorExecutor stopMemory (by decide)).2.2.1,
   (c4_exception_delivery_sequence 2 supervisorExecutor stopMemory (by decide)).2.2.2.2.1⟩

/-- C5 counterexample: applying a user-mode snapshot to a supervisor-mode executor with
set_state clears the supervisor bit but leaves the bookkeeping index at the supervisor
bank, so the claimed invariant fails right after set_state. -/
theorem c5_set_state_index_counterexample :
    ¬ ((supervisorExecutor.set_state userSnapshot).active_stack_pointer
        = (supervisorExecutor.set_state userSnapshot).status.is_supervisor) := by
  decide

/-- C5 amended: reset, exception delivery, did_update_status and (under a Semantic
Evaluator that keeps the supervisor bit) every run_for_instructions iteration keep the
bookkeeping index equal to the supervisor bit; set_state re-banks A7 from the restored
supervisor bit but leaves the bookkeeping index unchanged. -/
theorem c5_bank_swap_invariant_amended :
    (∀ s : Executor, s.did_update_status.active_stack_pointer
        = s.did_update_status.status.is_supervisor) ∧
    (∀ (s : Executor) (m : Memory),
      (Executor.reset s m).1.active_stack_pointer
        = (Executor.reset s m).1.status.is_supervisor) ∧
    (∀ (v : Nat) (s : Executor) (m : Memory),
      (Executor.raise_exception v s m).1.active_stack_pointer
        = (Executor.raise_exception v s m).1.status.is_supervisor) ∧
    (∀ (s : Executor) (r : Registers),
      (s.set_state r).address 7
        = (s.set_state r).stack_pointers (s.set_state r).status.is_supervisor ∧
      (s.set_state r).active_stack_pointer = s.active_stack_pointer) ∧
    (∀ (pf : PerformFn) (s : Executor) (m : Memory),
      (∀ (i : Preinstruction) (a b : Nat) (q : Status),
        (pf i a b q).2.2.is_supervisor = q.is_supervisor) →
      s.active_stack_pointer = s.status.is_supervisor →
      (Executor.run_one pf s m).1.active_stack_pointer
        = (Executor.run_one pf s m).1.status.is_supervisor) := by
  refine ⟨?_, ?_, raise_inv, ?_, run_one_inv⟩
  · intro s
    simp [Executor.did_update_status]
  · intro s m
    simp [Executor.reset, Executor.did_update_status]
  · intro s r
    constructor
    · simp [Executor.set_state]
      intro h
      exact absurd h (by decide)
    · simp [Executor.set_state]

/-- C5 witness: a concrete supervisor-mode run of one ABCD instruction under the trivial
Semantic Evaluator keeps the bookkeeping index equal to the supervisor bit. -/
theorem c5_bank_swap_invariant_amended_witness :
    (Executor.run_one trivPerform supervisorExecutor abcdMemory).1.active_stack_pointer =
      (Executor.run_one trivPerform supervisorExecutor abcdMemory).1.status.is_supervisor :=
  c5_bank_swap_invariant_amended.2.2.2.2 trivPerform supervisorExecutor abcdMemory
    (fun _ _ _ _ => rfl) (by decide)

/-- C6: decode is a total function on the 16-bit opcode space, and every opcode falls in
exactly one of the four spec classes: recognized operation, line-1010 undefined,
line-1111 undefined, generically undefined. -/
theorem c6_decode_partition : ∀ w : Fin 65536, ∃! c : DecodeClass, InClass w.val c := by
  intro w
  by_cases hu : (decode w.val).operation = .Undefined
  · by_cases ha : w.val &&& 61440 = 40960
    · refine ⟨.line1010, ⟨hu, ha⟩, ?_⟩
      intro c hc
      cases c with
      | valid => exact absurd hu hc
      | line1010 => rfl
      | line1111 =>
        exfalso
        have := hc.2
        omega
      | genericUndefined => exact absurd ha hc.2.1
    · by_cases hf : w.val &&& 61440 = 61440
      · refine ⟨.line1111, ⟨hu, hf⟩, ?_⟩
        intro c hc
        cases c with
        | valid => exact absurd hu hc
        | line1010 =>
          exfalso
          have := hc.2
          omega
        | line1111 => rfl
        | genericUndefined => exact absurd hf hc.2.2
      · refine ⟨.genericUndefined, ⟨hu, ha, hf⟩, ?_⟩
        intro c hc
        cases c with
        | valid => exact absurd hu hc
        | line1010 => exact absurd hc.2 ha
        | line1111 => exact absurd hc.2 hf
        | genericUndefined => rfl
  · refine ⟨.valid, hu, ?_⟩
    intro c hc
    cases c with
    | valid => rfl
    | line1010 => exact absurd hc.1 hu
    | line1111 => exact absurd hc.1 hu
    | genericUndefined => exact absurd hc.1 hu

/-- C7: register-direct operands resolve with requires_fetch false straight from the
register file and no events; the fetch step does nothing for such operands; the store
step writes them back to the register file with no bus event; and the fetch and store
steps issue exactly one bus read or write when and only when requires_fetch is true. -/
theorem c7_register_direct_no_bus :
    (∀ (s : Executor) (m : Memory) (instr : Preinstruction) (w idx : Nat),
      instr.mode idx = .DataRegisterDirect →
      Executor.calculate_effective_address s m instr w idx
        = (⟨s.data (instr.reg idx), false⟩, s, [])) ∧
    (∀ (s : Executor) (m : Memory) (instr : Preinstruction) (w idx : Nat),
      instr.mode idx = .AddressRegisterDirect →
      Executor.calculate_effective_address s m instr w idx
        = (⟨s.address (instr.reg idx), false⟩, s, [])) ∧
    (∀ (instr : Preinstruction) (ea : Fin 2 → EffectiveAddress) (i : Fin 2) (ctx : ExecCtx),
      (ea i).requires_fetch = false →
      fetchOperand instr ea i ctx = ctx) ∧
    (∀ (instr : Preinstruction) (ea : Fin 2 → EffectiveAddress) (i : Fin 2) (ctx : ExecCtx),
      (ea i).requires_fetch = false → instr.mode i = .DataRegisterDirect →
      (storeOperand instr ea i ctx).events = ctx.events ∧
      (storeOperand instr ea i ctx).m = ctx.m ∧
      (storeOperand instr ea i ctx).s =
        { ctx.s with data := Function.update ctx.s.data (instr.reg i) (ctx.operand i) }) ∧
    (∀ (instr : Preinstruction) (ea : Fin 2 → EffectiveAddress) (i : Fin 2) (ctx : ExecCtx),
      (ea i).requires_fetch = false → instr.mode i = .AddressRegisterDirect →
      (storeOperand instr ea i ctx).events = ctx.events ∧
      (storeOperand instr ea i ctx).m = ctx.m ∧
      (storeOperand instr ea i ctx).s =
        { ctx.s with address := Function.update ctx.s.address (instr.reg i) (ctx.operand i) }) ∧
    (∀ (instr : Preinstruction) (ea : Fin 2 → EffectiveAddress) (i : Fin 2) (ctx : ExecCtx),
      (ea i).requires_fetch = true →
      (fetchOperand instr ea i ctx).events = ctx.events ++
        [Event.busRead instr.size (u32 (ea i).value)
          (readSized instr.size ctx.m (u32 (ea i).value))] ∧
      (fetchOperand instr ea i ctx).m = ctx.m ∧
      (fetchOperand instr ea i ctx).s = ctx.s) ∧
    (∀ (instr : Preinstruction) (ea : Fin 2 → EffectiveAddress) (i : Fin 2) (ctx : ExecCtx),
      (ea i).requires_fetch = true →
      (storeOperand instr ea i ctx).events = ctx.events ++
        [Event.busWrite instr.size (u32 (ea i).value)
          (maskSized instr.size (ctx.operand i))] ∧
      (storeOperand instr ea i ctx).s = ctx.s ∧
      (storeOperand instr ea i ctx).m =
        writeSized instr.size ctx.m (u32 (ea i).value) (ctx.operand i)) := by
  refine ⟨?_, ?_, ?_, ?_, ?_, ?_, ?_⟩
  · intro s m instr w idx hm
    simp [Executor.calculate_effective_address, hm]
  · intro s m instr w idx hm
    simp [Executor.calculate_effective_address, hm]
  · intro instr ea i ctx hr
    simp [fetchOperand, hr]
  · intro instr ea i ctx hr hm
    simp [storeOperand, hr, hm]
  · intro instr ea i ctx hr hm
    simp [storeOperand, hr, hm]
  · intro instr ea i ctx hr
    refine ⟨?_, ?_, ?_⟩ <;>
      (by_cases hi : i = 0 <;> simp_all [fetchOperand, ExecCtx.setOperand])
  · intro instr ea i ctx hr
    simp [storeOperand, hr]

/-- C7 witness: the second operand of the concrete ABCD D1,D2 resolves from the register
file with no events, and a fetch step on a non-indirect operand leaves a concrete
context untouched. -/
theorem c7_register_direct_no_bus_witness :
    Executor.calculate_effective_address supervisorExecutor abcdMemory (decode 50433) 50433 1
      = (⟨supervisorExecutor.data ((decode 50433).reg 1), false⟩, supervisorExecutor, []) ∧
    fetchOperand (decode 50433) (fun _ => ⟨5, false⟩) 0 exampleCtx = exampleCtx :=
  ⟨c7_register_direct_no_bus.1 supervisorExecutor abcdMemory (decode 50433) 50433 1
      (by decide),
   c7_register_direct_no_bus.2.2.1 (decode 50433) (fun _ => ⟨5, false⟩) 0 exampleCtx
      (by decide)⟩

/-- C8: effective-address calculation handles every addressing mode of the enumeration
without reaching an assertion-failure branch, the step dispatch handles every step of
the step type, and running any decodable (non-Undefined) instruction never reaches the
assertion-failure branch of the store dispatch. -/
theorem c8_no_assert_reachable :
    (∀ (s : Executor) (m : Memory) (instr : Preinstruction) (w idx : Nat),
      Event.assertEv ∉ (Executor.calculate_effective_address s m instr w idx).2.2) ∧
    (∀ st : Step,
      st ∈ [Step.FetchOp1, Step.FetchOp2, Step.Perform, Step.StoreOp1, Step.StoreOp2]) ∧
    (∀ (pf : PerformFn) (s : Executor) (m : Memory),
      (decode (m.read16 (u32 s.program_counter))).operation ≠ .Undefined →
      Event.assertEv ∉ (Executor.run_one pf s m).2.2) := by
  refine ⟨calcEA_noassert, ?_, ?_⟩
  · intro st
    cases st <;> simp
  · intro pf s m hop
    by_cases h1 : m.read16 (u32 s.program_counter) = 20082
    · by_cases hsup : s.status.is_supervisor
      · simp [Executor.run_one, Executor.read_pc16, Executor.raise_exception, decode, h1,
          Preinstruction.requires_supervisor, hsup, sequenceOf,
          Executor.calculate_effective_address, Preinstruction.mode, performStep, execStep,
          fetchOperand, storeOperand]
      · simp [Executor.run_one, Executor.read_pc16, Executor.raise_exception, decode, h1,
          Preinstruction.requires_supervisor, hsup, sequenceOf,
          Executor.calculate_effective_address, Preinstruction.mode, performStep, execStep,
          fetchOperand, storeOperand]
    · by_cases h2 : m.read16 (u32 s.program_counter) &&& 61944 = 49408
      · simp [Executor.run_one, Executor.read_pc16, decode, h1, h2,
          Preinstruction.requires_supervisor, sequenceOf,
          Executor.calculate_effective_address, Preinstruction.mode, Preinstruction.reg,
          performStep, execStep, fetchOperand, storeOperand, ExecCtx.setOperand,
          ExecCtx.operand]
      · by_cases h3 : m.read16 (u32 s.program_counter) &&& 61944 = 49416
        · simp [Executor.run_one, Executor.read_pc16, decode, h1, h2, h3,
            Preinstruction.requires_supervisor, sequenceOf,
            Executor.calculate_effective_address, Preinstruction.mode, Preinstruction.reg,
            performStep, execStep, fetchOperand, storeOperand, ExecCtx.setOperand,
            ExecCtx.operand]
        · exfalso
          apply hop
          simp [decode, h1, h2, h3]

/-- C8 witness: the concrete decodable ABCD D1,D2 runs without reaching any
assertion-failure branch. -/
theorem c8_no_assert_reachable_witness :
    Event.assertEv ∉ (Executor.run_one trivPerform supervisorExecutor abcdMemory).2.2 :=
  c8_no_assert_reachable.2.2 trivPerform supervisorExecutor abcdMemory (by decide)

/-- C9: the byte_increments table adjusts A7 by 2 and every other address register by 1;
byte-sized postincrement and predecrement modes adjust the address register by that
amount, while word and longword sizes adjust by 2 and 4 for all registers; the resolved
effective address is the pre-adjust value for postincrement and the post-adjust value
for predecrement. -/
theorem c9_byte_increments_a7 :
    (∀ r : Fin 8, byte_increments r = if r = 7 then 2 else 1) ∧
    (∀ (op : Operation) (mo : AddressingMode) (rg : Fin 8) (sz : DataSize) (r : Fin 8)
       (s : Executor) (m : Memory) (w : Nat),
      (Executor.calculate_effective_address s m
          ⟨op, .AddressRegisterIndirectWithPostincrement, r, mo, rg, sz⟩ w 0).2.1.address r
        = u32 (s.address r + sizeIncrement sz r) ∧
      (Executor.calculate_effective_address s m
          ⟨op, .AddressRegisterIndirectWithPostincrement, r, mo, rg, sz⟩ w 0).1
        = ⟨s.address r, true⟩) ∧
    (∀ (op : Operation) (mo : AddressingMode) (rg : Fin 8) (sz : DataSize) (r : Fin 8)
       (s : Executor) (m : Memory) (w : Nat),
      (Executor.calculate_effective_address s m
          ⟨op, .AddressRegisterIndirectWithPredecrement, r, mo, rg, sz⟩ w 0).2.1.address r
        = sub32 (s.address r) (sizeIncrement sz r) ∧
      (Executor.calculate_effective_address s m
          ⟨op, .AddressRegisterIndirectWithPredecrement, r, mo, rg, sz⟩ w 0).1
        = ⟨sub32 (s.address r) (sizeIncrement sz r), true⟩) ∧
    (∀ r : Fin 8, sizeIncrement .Byte r = if r = 7 then 2 else 1) ∧
    (∀ r : Fin 8, sizeIncrement .Word r = 2) ∧
    (∀ r : Fin 8, sizeIncrement .LongWord r = 4) := by
  refine ⟨?_, ?_, ?_, ?_, ?_, ?_⟩
  · intro r
    fin_cases r <;> decide
  · intro op mo rg sz r s m w
    constructor <;>
      simp [Executor.calculate_effective_address, Preinstruction.mode, Preinstruction.reg,
        Function.update_same]
  · intro op mo rg sz r s m w
    constructor <;>
      simp [Executor.calculate_effective_address, Preinstruction.mode, Preinstruction.reg,
        Function.update_same]
  · intro r
    fin_cases r <;> decide
  · intro r
    rfl
  · intro r
    rfl

/-- C10: immediately after reset the status holds supervisor mode with the bank swap
applied, trace and all condition codes clear, but the interrupt-priority mask is 3, not
7 as the claim (and the source comment about blocking all interrupts) requires: the
source constant 0b0010001110000000 places 011 in bits 10-8 and a stray 1 in unused
bit 7. -/
theorem c10_reset_status_mask :
    (Executor.reset zeroExecutor resetMemory).1.status.is_supervisor = true ∧
    (Executor.reset zeroExecutor resetMemory).1.status.interrupt_level = 3 ∧
    (Executor.reset zeroExecutor resetMemory).1.status.interrupt_level ≠ 7 ∧
    (Executor.reset zeroExecutor resetMemory).1.status.trace_flag = false ∧
    (Executor.reset zeroExecutor resetMemory).1.status.carry = false ∧
    (Executor.reset zeroExecutor resetMemory).1.status.overflow = false ∧
    (Executor.reset zeroExecutor resetMemory).1.status.zero = false ∧
    (Executor.reset zeroExecutor resetMemory).1.status.negative = false ∧
    (Executor.reset zeroExecutor resetMemory).1.status.extend = false ∧
    (Executor.reset zeroExecutor resetMemory).1.active_stack_pointer = true := by
  refine ⟨?_, ?_, ?_, ?_, ?_, ?_, ?_, ?_, ?_, ?_⟩ <;> decide

end CLK
